import Mathlib

/-!
# Ocean settings panel (`Editor/OceanWindow.cpp`)

A shallow embedding of the callbacks wired up by the `OceanWindow` constructor.

* Scalars of C++ type `float` are values of an arbitrary type `F`; the handlers only
  copy them, except for the colour handler, which calls `powf` (taken as a parameter).
* `int` / `uint32_t` are `Int` / `Nat`, the conversion being an explicit `% 2 ^ 32`.
* The renderer singleton is explicit state: the live instance returned by `GetOcean`
  (`none` for `nullptr`) and the log of the calls made to `SetOceanEnabled`.
* What `SetOceanEnabled` does to the live instance is outside this file; it is the
  parameter `impl` of every handler that calls it.
-/

namespace WickedEngine

/-- Three packed floats (`XMFLOAT3`). -/
structure XMFLOAT3 (F : Type) where
  x : F
  y : F
  z : F
deriving DecidableEq

/-- Four packed floats (`XMFLOAT4`), the type of `wiEventArgs::color`. -/
structure XMFLOAT4 (F : Type) where
  x : F
  y : F
  z : F
  w : F
deriving DecidableEq

/-- Modelled from the spec: the declaration of `wiOceanParameter` is not part of the source;
the record holds patch length, wave amplitude, choppy scale, wind dependency and time scale. -/
structure wiOceanParameter (F : Type) where
  patch_length : F
  wave_amplitude : F
  choppy_scale : F
  wind_dependency : F
  time_scale : F
deriving DecidableEq

/-- Modelled from the spec: the declaration of `wiOcean` is not part of the source; the live
instance exposes water height, surface detail (`uint32_t`), displacement tolerance and
water colour. -/
structure wiOcean (F : Type) where
  waterHeight : F
  surfaceDetail : Nat
  surfaceDisplacementTolerance : F
  waterColor : XMFLOAT3 F
deriving DecidableEq

/-- The members of `wiEventArgs` read by the callbacks. -/
structure wiEventArgs (F : Type) where
  bValue : Bool
  fValue : F
  iValue : Int
  color : XMFLOAT4 F
deriving DecidableEq

/-- State of the renderer singleton seen by the panel: the live instance (`none` is
`nullptr`) and the arguments of every `SetOceanEnabled` call so far, oldest first. -/
structure wiRenderer (F : Type) where
  ocean : Option (wiOcean F)
  enableCalls : List (Bool × wiOceanParameter F)
deriving DecidableEq

/-- State owned by the panel: the member `params` and the checked flag of
`enabledCheckBox` (what `enabledCheckBox->GetCheck()` returns). -/
structure OceanWindow (F : Type) where
  params : wiOceanParameter F
  enabledCheck : Bool
deriving DecidableEq

/-- Everything a callback can read or write. -/
structure World (F : Type) where
  panel : OceanWindow F
  renderer : wiRenderer F
deriving DecidableEq

/-- Effect of the renderer's enable function on the live instance (external to this file). -/
abbrev EnableImpl (F : Type) : Type :=
  Bool → wiOceanParameter F → Option (wiOcean F) → Option (wiOcean F)

variable {F : Type}

/-- The accessor `wiRenderer::GetOcean()`. -/
def GetOcean (r : wiRenderer F) : Option (wiOcean F) :=
  r.ocean

/-- The call `wiRenderer::SetOceanEnabled(enabled, params)`: the instance is whatever the
renderer makes of it, and the call is recorded. -/
def SetOceanEnabled (impl : EnableImpl F) (enabled : Bool) (params : wiOceanParameter F)
    (r : wiRenderer F) : wiRenderer F :=
  { ocean := impl enabled params r.ocean
    enableCalls := r.enableCalls ++ [(enabled, params)] }

/-- The conversion `(uint32_t)i` of a signed integer. -/
def toUInt32 (i : Int) : Nat :=
  (i % 2 ^ 32).toNat

/-- Lines 23-25: `enabledCheckBox->OnClick`. -/
def enabledCheckBox_OnClick (impl : EnableImpl F) (args : wiEventArgs F) (s : World F) :
    World F :=
  { s with renderer := SetOceanEnabled impl args.bValue s.panel.params s.renderer }

/-- Lines 34-37: `patchSizeSlider->OnSlide`. -/
def patchSizeSlider_OnSlide (impl : EnableImpl F) (args : wiEventArgs F) (s : World F) :
    World F :=
  let params := { s.panel.params with patch_length := args.fValue }
  { panel := { s.panel with params := params }
    renderer := SetOceanEnabled impl s.panel.enabledCheck params s.renderer }

/-- Lines 44-47: `waveAmplitudeSlider->OnSlide`. -/
def waveAmplitudeSlider_OnSlide (impl : EnableImpl F) (args : wiEventArgs F) (s : World F) :
    World F :=
  let params := { s.panel.params with wave_amplitude := args.fValue }
  { panel := { s.panel with params := params }
    renderer := SetOceanEnabled impl s.panel.enabledCheck params s.renderer }

/-- Lines 54-57: `choppyScaleSlider->OnSlide`. -/
def choppyScaleSlider_OnSlide (impl : EnableImpl F) (args : wiEventArgs F) (s : World F) :
    World F :=
  let params := { s.panel.params with choppy_scale := args.fValue }
  { panel := { s.panel with params := params }
    renderer := SetOceanEnabled impl s.panel.enabledCheck params s.renderer }

/-- Lines 64-67: `windDependencySlider->OnSlide`. -/
def windDependencySlider_OnSlide (impl : EnableImpl F) (args : wiEventArgs F) (s : World F) :
    World F :=
  let params := { s.panel.params with wind_dependency := args.fValue }
  { panel := { s.panel with params := params }
    renderer := SetOceanEnabled impl s.panel.enabledCheck params s.renderer }

/-- Lines 74-77: `timeScaleSlider->OnSlide`. -/
def timeScaleSlider_OnSlide (impl : EnableImpl F) (args : wiEventArgs F) (s : World F) :
    World F :=
  let params := { s.panel.params with time_scale := args.fValue }
  { panel := { s.panel with params := params }
    renderer := SetOceanEnabled impl s.panel.enabledCheck params s.renderer }

/-- Lines 84-87: `heightSlider->OnSlide`. -/
def heightSlider_OnSlide (args : wiEventArgs F) (s : World F) : World F :=
  match GetOcean s.renderer with
  | none => s
  | some ocean =>
    { s with renderer := { s.renderer with ocean := some { ocean with waterHeight := args.fValue } } }

/-- Lines 94-97: `detailSlider->OnSlide`. -/
def detailSlider_OnSlide (args : wiEventArgs F) (s : World F) : World F :=
  match GetOcean s.renderer with
  | none => s
  | some ocean =>
    { s with
      renderer := { s.renderer with ocean := some { ocean with surfaceDetail := toUInt32 args.iValue } } }

/-- Lines 104-107: `toleranceSlider->OnSlide`. -/
def toleranceSlider_OnSlide (args : wiEventArgs F) (s : World F) : World F :=
  match GetOcean s.renderer with
  | none => s
  | some ocean =>
    { s with
      renderer :=
        { s.renderer with
          ocean := some { ocean with surfaceDisplacementTolerance := args.fValue } } }

/-- Lines 116-119: `colorPicker->OnColorChanged`; `powf` is the C library function. -/
def colorPicker_OnColorChanged [DivisionRing F] (powf : F → F → F) (args : wiEventArgs F)
    (s : World F) : World F :=
  match GetOcean s.renderer with
  | none => s
  | some ocean =>
    { s with
      renderer :=
        { s.renderer with
          ocean := some { ocean with
            waterColor :=
              XMFLOAT3.mk (powf args.color.x (1 / 2.2)) (powf args.color.y (1 / 2.2))
                (powf args.color.z (1 / 2.2)) } } }

/-- Lines 21-26 of the constructor: the panel starts with its member `params` as default
constructed (the defaults are declared outside this file, so they are a parameter) and the
checkbox is initialised with `GetOcean() != nullptr`. The constructor calls neither
`SetOceanEnabled` nor any instance setter. -/
def OceanWindow.create (defaults : wiOceanParameter F) (r : wiRenderer F) : World F :=
  { panel := { params := defaults, enabledCheck := (GetOcean r).isSome }
    renderer := r }

/-- Modelled from the spec: the checkbox widget is not part of the source. "Toggle enabled:
sets enabled flag, calls renderer's enable-with-parameters function": the widget stores the
new flag and then runs the click handler with that flag in `bValue`. -/
def enabledCheckBox_Click (impl : EnableImpl F) (args : wiEventArgs F) (s : World F) :
    World F :=
  enabledCheckBox_OnClick impl args
    { s with panel := { s.panel with enabledCheck := args.bValue } }

/-- The five sliders bound to a field of the parameter record. -/
inductive ParamSlider where
  | patchSize
  | waveAmplitude
  | choppyScale
  | windDependency
  | timeScale
deriving DecidableEq

/-- The field of the parameter record a parameter slider is bound to. -/
def ParamSlider.field (k : ParamSlider) (p : wiOceanParameter F) : F :=
  match k with
  | .patchSize => p.patch_length
  | .waveAmplitude => p.wave_amplitude
  | .choppyScale => p.choppy_scale
  | .windDependency => p.wind_dependency
  | .timeScale => p.time_scale

/-- The `OnSlide` handler registered on a parameter slider. -/
def ParamSlider.OnSlide (impl : EnableImpl F) (k : ParamSlider) (args : wiEventArgs F)
    (s : World F) : World F :=
  match k with
  | .patchSize => patchSizeSlider_OnSlide impl args s
  | .waveAmplitude => waveAmplitudeSlider_OnSlide impl args s
  | .choppyScale => choppyScaleSlider_OnSlide impl args s
  | .windDependency => windDependencySlider_OnSlide impl args s
  | .timeScale => timeScaleSlider_OnSlide impl args s

/-- A finite sequence of parameter-slider edits, run in order. -/
def applyEdits (impl : EnableImpl F) (edits : List (ParamSlider × wiEventArgs F))
    (s : World F) : World F :=
  edits.foldl (fun acc e => e.1.OnSlide impl e.2 acc) s

/-- The value of the last edit of the sequence that targeted slider `k`, or `start` when no
edit did (the words of "last edit wins"). -/
def lastEdit (k : ParamSlider) (edits : List (ParamSlider × wiEventArgs F)) (start : F) : F :=
  match edits.reverse.find? (fun e => decide (e.1 = k)) with
  | some e => e.2.fValue
  | none => start

/-- Assumption on the renderer used for the checkbox invariant: after the enable function
is called, a live instance is present exactly when the flag was true. -/
def EnableContract (impl : EnableImpl F) : Prop :=
  ∀ (b : Bool) (p : wiOceanParameter F) (o : Option (wiOcean F)), (impl b p o).isSome = b

/-- The checkbox is checked exactly when a live instance exists. -/
def CheckMatchesInstance (s : World F) : Prop :=
  s.panel.enabledCheck = (GetOcean s.renderer).isSome

/-- Numeric arguments of a `new wiSlider(start, end, defaultValue, step, name)` call. -/
structure wiSlider (F : Type) where
  rangeStart : F
  rangeEnd : F
  defaultValue : F
  step : F
deriving DecidableEq

/-- A value lies in the range a slider was constructed with. -/
def wiSlider.InRange [LinearOrderedField F] (w : wiSlider F) (v : F) : Prop :=
  w.rangeStart ≤ v ∧ v ≤ w.rangeEnd

instance [LinearOrderedField F] (w : wiSlider F) (v : F) : Decidable (w.InRange v) := by
  unfold wiSlider.InRange
  infer_instance

/-- Line 30. -/
def patchSizeSlider [LinearOrderedField F] : wiSlider F := ⟨1, 2000, 1000, 100000⟩
/-- Line 40. -/
def waveAmplitudeSlider [LinearOrderedField F] : wiSlider F := ⟨0, 100, 1000, 100000⟩
/-- Line 50. -/
def choppyScaleSlider [LinearOrderedField F] : wiSlider F := ⟨0, 10, 1000, 100000⟩
/-- Line 60. -/
def windDependencySlider [LinearOrderedField F] : wiSlider F := ⟨0, 1, 1000, 100000⟩
/-- Line 70. -/
def timeScaleSlider [LinearOrderedField F] : wiSlider F := ⟨0, 4, 1000, 100000⟩
/-- Line 80. -/
def heightSlider [LinearOrderedField F] : wiSlider F := ⟨-100, 100, 0, 100000⟩
/-- Line 90. -/
def detailSlider [LinearOrderedField F] : wiSlider F := ⟨1, 10, 0, 9⟩
/-- Line 100. -/
def toleranceSlider [LinearOrderedField F] : wiSlider F := ⟨1, 10, 0, 1000⟩

/-- Modelled from the spec: the slider widget is not part of the source. "All values come
from range-clamped slider widgets": the event a slider delivers carries the raw position
clamped to the range the slider was constructed with, the float value to the interval
and the integer value to the integers of the interval. -/
def wiSlider.Slide [LinearOrderedField F] [FloorRing F] (w : wiSlider F)
    (args : wiEventArgs F) : wiEventArgs F :=
  { args with
    fValue := max w.rangeStart (min w.rangeEnd args.fValue)
    iValue := max ⌈w.rangeStart⌉ (min ⌊w.rangeEnd⌋ args.iValue) }

/-- The eight sliders of the panel. -/
inductive Slider where
  | param (k : ParamSlider)
  | height
  | detail
  | tolerance
deriving DecidableEq

/-- The widget each slider was constructed as. -/
def Slider.widget [LinearOrderedField F] (k : Slider) : wiSlider F :=
  match k with
  | .param .patchSize => patchSizeSlider
  | .param .waveAmplitude => waveAmplitudeSlider
  | .param .choppyScale => choppyScaleSlider
  | .param .windDependency => windDependencySlider
  | .param .timeScale => timeScaleSlider
  | .height => heightSlider
  | .detail => detailSlider
  | .tolerance => toleranceSlider

/-- The `OnSlide` handler registered on each slider. -/
def Slider.OnSlide (impl : EnableImpl F) (k : Slider) (args : wiEventArgs F) (s : World F) :
    World F :=
  match k with
  | .param p => p.OnSlide impl args s
  | .height => heightSlider_OnSlide args s
  | .detail => detailSlider_OnSlide args s
  | .tolerance => toleranceSlider_OnSlide args s

/-- A user interaction with one control of the panel; the payload is the raw event. -/
inductive Event (F : Type) where
  | click (args : wiEventArgs F)
  | slide (k : Slider) (args : wiEventArgs F)
  | colorChanged (args : wiEventArgs F)

/-- The panel reacting to one interaction: the widget prepares the event and runs the
handler registered on it. -/
def Event.dispatch [LinearOrderedField F] [FloorRing F] (impl : EnableImpl F)
    (powf : F → F → F) (e : Event F) (s : World F) : World F :=
  match e with
  | .click args => enabledCheckBox_Click impl args s
  | .slide k args => k.OnSlide impl ((k.widget : wiSlider F).Slide args) s
  | .colorChanged args => colorPicker_OnColorChanged powf args s

/-- A sequence of interactions, in order. -/
def run [LinearOrderedField F] [FloorRing F] (impl : EnableImpl F) (powf : F → F → F)
    (events : List (Event F)) (s : World F) : World F :=
  events.foldl (fun acc e => e.dispatch impl powf acc) s

/-- Every field of a parameter record lies in the range of the slider bound to it. -/
def ParamsInRange [LinearOrderedField F] (p : wiOceanParameter F) : Prop :=
  (patchSizeSlider : wiSlider F).InRange p.patch_length ∧
  (waveAmplitudeSlider : wiSlider F).InRange p.wave_amplitude ∧
  (choppyScaleSlider : wiSlider F).InRange p.choppy_scale ∧
  (windDependencySlider : wiSlider F).InRange p.wind_dependency ∧
  (timeScaleSlider : wiSlider F).InRange p.time_scale

instance [LinearOrderedField F] (p : wiOceanParameter F) : Decidable (ParamsInRange p) := by
  unfold ParamsInRange
  infer_instance

/-- Where the fields of a parameter record come from, relative to the record the panel was
constructed with and the interactions that happened: each field either still equals its
construction default, or is the value delivered by a slide event of its own slider (and
then lies in the range of that slider). -/
def FromSliderOrDefault [LinearOrderedField F] [FloorRing F] (defaults : wiOceanParameter F)
    (events : List (Event F)) (p : wiOceanParameter F) : Prop :=
  ∀ k : ParamSlider,
    k.field p = k.field defaults ∨
      ∃ args : wiEventArgs F,
        Event.slide (Slider.param k) args ∈ events ∧
          k.field p = (((Slider.param k).widget : wiSlider F).Slide args).fValue ∧
          ((Slider.param k).widget : wiSlider F).InRange (k.field p)

/-- A renderer whose enable function creates a fresh instance when the flag is true and
destroys it otherwise; used to evaluate the handlers on concrete inputs. -/
def sampleImpl (F : Type) [DivisionRing F] : EnableImpl F :=
  fun b _ _ => if b then some ⟨0, 4, 2, ⟨0, 0, 0⟩⟩ else none

/-- A stand-in for `powf`, used only to evaluate the handlers on inputs where no instance
exists. -/
def samplePowf : ℚ → ℚ → ℚ :=
  fun x _ => x

/-- A parameter record with every field inside the range of its slider. -/
def sampleParams (F : Type) [DivisionRing F] : wiOceanParameter F :=
  ⟨1000, 1, 2, 1 / 2, 1⟩

/-- A live instance. -/
def sampleOcean (F : Type) [DivisionRing F] : wiOcean F :=
  ⟨0, 4, 2, ⟨0, 0, 0⟩⟩

/-- An event payload. -/
def sampleArgs (F : Type) [DivisionRing F] : wiEventArgs F :=
  ⟨true, 7, 7, ⟨0.5, 0, 1, 1⟩⟩

/-- A state without live instance, checkbox unchecked. -/
def sampleWorldOff (F : Type) [DivisionRing F] : World F :=
  ⟨⟨sampleParams F, false⟩, ⟨none, []⟩⟩

/-- A state with a live instance, checkbox checked. -/
def sampleWorldOn (F : Type) [DivisionRing F] : World F :=
  ⟨⟨sampleParams F, true⟩, ⟨some (sampleOcean F), [(true, sampleParams F)]⟩⟩

/-- A parameter record whose wave amplitude (1000, the default value the wave-amplitude
slider itself is constructed with on line 40) is outside the range [0, 100] of that slider. -/
def wideDefaults : wiOceanParameter ℚ :=
  ⟨50, 1000, 1, 1 / 2, 1⟩

/-- A renderer on which nothing has happened yet. -/
def freshRenderer (F : Type) : wiRenderer F :=
  ⟨none, []⟩

/-! ## Theorems -/

/-- C1: each of the five parameter-slider handlers stores the slid value in its own field of
the parameter record and then calls the enable function exactly once (the call log grows by
one entry), with the current checkbox flag and the already-updated record. -/
theorem param_sliders_store_then_enable (impl : EnableImpl F) (args : wiEventArgs F)
    (s : World F) :
    ((patchSizeSlider_OnSlide impl args s).panel.params
        = { s.panel.params with patch_length := args.fValue } ∧
      (patchSizeSlider_OnSlide impl args s).renderer
        = SetOceanEnabled impl s.panel.enabledCheck
            { s.panel.params with patch_length := args.fValue } s.renderer ∧
      (patchSizeSlider_OnSlide impl args s).renderer.enableCalls
        = s.renderer.enableCalls ++
            [(s.panel.enabledCheck, { s.panel.params with patch_length := args.fValue })]) ∧
    ((waveAmplitudeSlider_OnSlide impl args s).panel.params
        = { s.panel.params with wave_amplitude := args.fValue } ∧
      (waveAmplitudeSlider_OnSlide impl args s).renderer
        = SetOceanEnabled impl s.panel.enabledCheck
            { s.panel.params with wave_amplitude := args.fValue } s.renderer ∧
      (waveAmplitudeSlider_OnSlide impl args s).renderer.enableCalls
        = s.renderer.enableCalls ++
            [(s.panel.enabledCheck, { s.panel.params with wave_amplitude := args.fValue })]) ∧
    ((choppyScaleSlider_OnSlide impl args s).panel.params
        = { s.panel.params with choppy_scale := args.fValue } ∧
      (choppyScaleSlider_OnSlide impl args s).renderer
        = SetOceanEnabled impl s.panel.enabledCheck
            { s.panel.params with choppy_scale := args.fValue } s.renderer ∧
      (choppyScaleSlider_OnSlide impl args s).renderer.enableCalls
        = s.renderer.enableCalls ++
            [(s.panel.enabledCheck, { s.panel.params with choppy_scale := args.fValue })]) ∧
    ((windDependencySlider_OnSlide impl args s).panel.params
        = { s.panel.params with wind_dependency := args.fValue } ∧
      (windDependencySlider_OnSlide impl args s).renderer
        = SetOceanEnabled impl s.panel.enabledCheck
            { s.panel.params with wind_dependency := args.fValue } s.renderer ∧
      (windDependencySlider_OnSlide impl args s).renderer.enableCalls
        = s.renderer.enableCalls ++
            [(s.panel.enabledCheck, { s.panel.params with wind_dependency := args.fValue })]) ∧
    ((timeScaleSlider_OnSlide impl args s).panel.params
        = { s.panel.params with time_scale := args.fValue } ∧
      (timeScaleSlider_OnSlide impl args s).renderer
        = SetOceanEnabled impl s.panel.enabledCheck
            { s.panel.params with time_scale := args.fValue } s.renderer ∧
      (timeScaleSlider_OnSlide impl args s).renderer.enableCalls
        = s.renderer.enableCalls ++
            [(s.panel.enabledCheck, { s.panel.params with time_scale := args.fValue })]) :=
  ⟨⟨rfl, rfl, rfl⟩, ⟨rfl, rfl, rfl⟩, ⟨rfl, rfl, rfl⟩, ⟨rfl, rfl, rfl⟩, ⟨rfl, rfl, rfl⟩⟩

/-- C2: the click handler of the checkbox, run with flag `b` while the panel holds the
record `p`, calls the enable function exactly once, with `(b, p)`, and leaves the panel
(the record with all its fields, and the flag) as it was. -/
theorem enabled_click_calls_enable_once (impl : EnableImpl F) (args : wiEventArgs F)
    (s : World F) :
    (enabledCheckBox_OnClick impl args s).renderer.enableCalls
        = s.renderer.enableCalls ++ [(args.bValue, s.panel.params)] ∧
      (enabledCheckBox_OnClick impl args s).renderer
        = SetOceanEnabled impl args.bValue s.panel.params s.renderer ∧
      (enabledCheckBox_OnClick impl args s).panel.params = s.panel.params ∧
      (enabledCheckBox_OnClick impl args s).panel = s.panel :=
  ⟨rfl, rfl, rfl, rfl⟩

/-- C3: when the accessor reports no live instance, the water-level, surface-detail,
displacement-tolerance and water-colour handlers return the state they were given: nothing
is created or written and the enable function is not called. The handlers are total
functions, so they complete on every input. -/
theorem instance_handlers_skip_without_instance [DivisionRing F] (powf : F → F → F)
    (args : wiEventArgs F) (s : World F) (h : GetOcean s.renderer = none) :
    heightSlider_OnSlide args s = s ∧
      detailSlider_OnSlide args s = s ∧
      toleranceSlider_OnSlide args s = s ∧
      colorPicker_OnColorChanged powf args s = s := by
  refine ⟨?_, ?_, ?_, ?_⟩
  · simp only [heightSlider_OnSlide, h]
  · simp only [detailSlider_OnSlide, h]
  · simp only [toleranceSlider_OnSlide, h]
  · simp only [colorPicker_OnColorChanged, h]

/-- Witness of C3 on a state without instance. -/
theorem instance_handlers_skip_without_instance_witness :
    GetOcean (sampleWorldOff ℚ).renderer = none ∧
      (heightSlider_OnSlide (sampleArgs ℚ) (sampleWorldOff ℚ) = sampleWorldOff ℚ ∧
        detailSlider_OnSlide (sampleArgs ℚ) (sampleWorldOff ℚ) = sampleWorldOff ℚ ∧
        toleranceSlider_OnSlide (sampleArgs ℚ) (sampleWorldOff ℚ) = sampleWorldOff ℚ ∧
        colorPicker_OnColorChanged samplePowf (sampleArgs ℚ) (sampleWorldOff ℚ)
          = sampleWorldOff ℚ) :=
  ⟨rfl, instance_handlers_skip_without_instance samplePowf (sampleArgs ℚ) (sampleWorldOff ℚ) rfl⟩

/-- C4: when a live instance `o` exists, the water-level, surface-detail and
displacement-tolerance handlers each replace exactly one field of it (`waterHeight`,
`surfaceDetail`, `surfaceDisplacementTolerance`) by the slid value (for the detail slider
the `int` value converted to `uint32_t`, which is the value itself when it is not negative),
keep the other three fields, keep the panel with its parameter record, and make no call
to the enable function. -/
theorem instance_sliders_write_one_field (args : wiEventArgs F) (s : World F) (o : wiOcean F)
    (h : GetOcean s.renderer = some o) :
    (GetOcean (heightSlider_OnSlide args s).renderer
        = some ⟨args.fValue, o.surfaceDetail, o.surfaceDisplacementTolerance, o.waterColor⟩ ∧
      (heightSlider_OnSlide args s).panel = s.panel ∧
      (heightSlider_OnSlide args s).renderer.enableCalls = s.renderer.enableCalls) ∧
    (GetOcean (detailSlider_OnSlide args s).renderer
        = some ⟨o.waterHeight, toUInt32 args.iValue, o.surfaceDisplacementTolerance,
            o.waterColor⟩ ∧
      (0 ≤ args.iValue → args.iValue < 2 ^ 32 → (toUInt32 args.iValue : Int) = args.iValue) ∧
      (detailSlider_OnSlide args s).panel = s.panel ∧
      (detailSlider_OnSlide args s).renderer.enableCalls = s.renderer.enableCalls) ∧
    (GetOcean (toleranceSlider_OnSlide args s).renderer
        = some ⟨o.waterHeight, o.surfaceDetail, args.fValue, o.waterColor⟩ ∧
      (toleranceSlider_OnSlide args s).panel = s.panel ∧
      (toleranceSlider_OnSlide args s).renderer.enableCalls = s.renderer.enableCalls) := by
  refine ⟨⟨?_, ?_, ?_⟩, ⟨?_, ?_, ?_, ?_⟩, ⟨?_, ?_, ?_⟩⟩
  · simp only [heightSlider_OnSlide, h]; rfl
  · simp only [heightSlider_OnSlide, h]
  · simp only [heightSlider_OnSlide, h]
  · simp only [detailSlider_OnSlide, h]; rfl
  · intro h0 h1
    unfold toUInt32
    rw [Int.emod_eq_of_lt h0 h1]
    exact Int.toNat_of_nonneg h0
  · simp only [detailSlider_OnSlide, h]
  · simp only [detailSlider_OnSlide, h]
  · simp only [toleranceSlider_OnSlide, h]; rfl
  · simp only [toleranceSlider_OnSlide, h]
  · simp only [toleranceSlider_OnSlide, h]

/-- Witness of C4 on a state with a live instance. -/
theorem instance_sliders_write_one_field_witness :
    GetOcean (sampleWorldOn ℚ).renderer = some (sampleOcean ℚ) ∧
      GetOcean (heightSlider_OnSlide (sampleArgs ℚ) (sampleWorldOn ℚ)).renderer
        = some ⟨7, 4, 2, ⟨0, 0, 0⟩⟩ ∧
      GetOcean (detailSlider_OnSlide (sampleArgs ℚ) (sampleWorldOn ℚ)).renderer
        = some ⟨0, 7, 2, ⟨0, 0, 0⟩⟩ ∧
      GetOcean (toleranceSlider_OnSlide (sampleArgs ℚ) (sampleWorldOn ℚ)).renderer
        = some ⟨0, 4, 7, ⟨0, 0, 0⟩⟩ :=
  ⟨rfl,
    (instance_sliders_write_one_field (sampleArgs ℚ) (sampleWorldOn ℚ) (sampleOcean ℚ) rfl).1.1,
    (instance_sliders_write_one_field (sampleArgs ℚ) (sampleWorldOn ℚ) (sampleOcean ℚ) rfl).2.1.1,
    (instance_sliders_write_one_field (sampleArgs ℚ) (sampleWorldOn ℚ) (sampleOcean ℚ) rfl).2.2.1⟩

/-- The exponent `1 / 2.2` is `5 / 11`. -/
theorem gamma_exponent : ((1 : ℝ) / 2.2) = 5 * (11 : ℝ)⁻¹ := by norm_num

/-- Bounds on `x ^ (1 / 2.2)` from bounds between eleventh and fifth powers. -/
theorem rpow_gamma_bounds (lo hi x : ℝ) (hlo : 0 ≤ lo) (hx : 0 ≤ x) (hhi : 0 ≤ hi)
    (h1 : lo ^ 11 < x ^ 5) (h2 : x ^ 5 < hi ^ 11) :
    lo < x ^ ((1 : ℝ) / 2.2) ∧ x ^ ((1 : ℝ) / 2.2) < hi := by
  have e : x ^ ((1 : ℝ) / 2.2) = (x ^ 5) ^ (((11 : ℕ) : ℝ)⁻¹) := by
    rw [gamma_exponent, Real.rpow_mul hx]
    congr 1
    exact_mod_cast Real.rpow_natCast x 5
  have elo : lo = (lo ^ 11) ^ (((11 : ℕ) : ℝ)⁻¹) :=
    (Real.pow_rpow_inv_natCast hlo (by norm_num)).symm
  have ehi : hi = (hi ^ 11) ^ (((11 : ℕ) : ℝ)⁻¹) :=
    (Real.pow_rpow_inv_natCast hhi (by norm_num)).symm
  have hz : (0 : ℝ) < ((11 : ℕ) : ℝ)⁻¹ := by norm_num
  rw [e]
  constructor
  · have := Real.rpow_lt_rpow (pow_nonneg hlo 11) h1 hz
    rwa [← elo] at this
  · have := Real.rpow_lt_rpow (pow_nonneg hx 5) h2 hz
    rwa [← ehi] at this

/-- Linear one half is displayed as about 0.729. -/
theorem gamma_half : |(0.5 : ℝ) ^ ((1 : ℝ) / 2.2) - 0.729| < 0.001 := by
  have h := rpow_gamma_bounds 0.728 0.730 0.5 (by norm_num) (by norm_num) (by norm_num)
    (by norm_num) (by norm_num)
  rw [abs_lt]
  constructor <;> linarith [h.1, h.2]

/-- Linear zero is displayed as zero. -/
theorem gamma_zero : (0 : ℝ) ^ ((1 : ℝ) / 2.2) = 0 := by
  apply Real.zero_rpow
  norm_num

/-- Linear one is displayed as one. -/
theorem gamma_one : (1 : ℝ) ^ ((1 : ℝ) / 2.2) = 1 :=
  Real.one_rpow _

/-- C5 (floats read as real numbers; `powf` is any function that agrees with the real
power on non-negative bases, nothing is assumed of it on negative ones): when a live
instance `o` exists, the colour handler given the linear colour `(r, g, b)` replaces
`waterColor` by `powf` of each channel with exponent `1 / 2.2`, each channel computed from
that channel alone, and keeps the other fields; a non-negative channel `c` is stored as
`c ^ (1 / 2.2)`; a channel of 0.5 is stored within 0.001 of 0.729, and channels 0 and 1 are
stored as 0 and 1. -/
theorem color_handler_applies_gamma (powf : ℝ → ℝ → ℝ)
    (hpow : ∀ x y : ℝ, 0 ≤ x → powf x y = x ^ y) (args : wiEventArgs ℝ) (s : World ℝ)
    (o : wiOcean ℝ) (h : GetOcean s.renderer = some o) :
    ∃ c : XMFLOAT3 ℝ,
      GetOcean (colorPicker_OnColorChanged powf args s).renderer
          = some ⟨o.waterHeight, o.surfaceDetail, o.surfaceDisplacementTolerance, c⟩ ∧
        c.x = powf args.color.x (1 / 2.2) ∧
        c.y = powf args.color.y (1 / 2.2) ∧
        c.z = powf args.color.z (1 / 2.2) ∧
        (0 ≤ args.color.x → c.x = args.color.x ^ ((1 : ℝ) / 2.2)) ∧
        (0 ≤ args.color.y → c.y = args.color.y ^ ((1 : ℝ) / 2.2)) ∧
        (0 ≤ args.color.z → c.z = args.color.z ^ ((1 : ℝ) / 2.2)) ∧
        (args.color.x = 0.5 → |c.x - 0.729| < 0.001) ∧
        (args.color.y = 0.5 → |c.y - 0.729| < 0.001) ∧
        (args.color.z = 0.5 → |c.z - 0.729| < 0.001) ∧
        (args.color.x = 0 → c.x = 0) ∧ (args.color.y = 0 → c.y = 0) ∧
        (args.color.z = 0 → c.z = 0) ∧
        (args.color.x = 1 → c.x = 1) ∧ (args.color.y = 1 → c.y = 1) ∧
        (args.color.z = 1 → c.z = 1) := by
  have hhalf : powf 0.5 ((1 : ℝ) / 2.2) = (0.5 : ℝ) ^ ((1 : ℝ) / 2.2) :=
    hpow _ _ (by norm_num)
  have hzero : powf 0 ((1 : ℝ) / 2.2) = 0 := (hpow _ _ le_rfl).trans gamma_zero
  have hone : powf 1 ((1 : ℝ) / 2.2) = 1 := (hpow _ _ zero_le_one).trans gamma_one
  refine ⟨⟨powf args.color.x (1 / 2.2), powf args.color.y (1 / 2.2),
    powf args.color.z (1 / 2.2)⟩, ?_, rfl, rfl, rfl, hpow _ _, hpow _ _, hpow _ _,
    ?_, ?_, ?_, ?_, ?_, ?_, ?_, ?_, ?_⟩
  · simp only [colorPicker_OnColorChanged, h]
    rfl
  all_goals intro hc
  all_goals simp only [hc]
  · rw [hhalf]; exact gamma_half
  · rw [hhalf]; exact gamma_half
  · rw [hhalf]; exact gamma_half
  · exact hzero
  · exact hzero
  · exact hzero
  · exact hone
  · exact hone
  · exact hone

/-- Witness of C5: the linear colour (0.5, 0, 1) on a state with a live instance, with the
real power as `powf`. -/
theorem color_handler_applies_gamma_witness :
    (∀ x y : ℝ, 0 ≤ x → (fun a b : ℝ => a ^ b) x y = x ^ y) ∧
      GetOcean (sampleWorldOn ℝ).renderer = some (sampleOcean ℝ) ∧
      ∃ c : XMFLOAT3 ℝ,
        GetOcean (colorPicker_OnColorChanged (fun a b : ℝ => a ^ b) (sampleArgs ℝ)
            (sampleWorldOn ℝ)).renderer = some ⟨0, 4, 2, c⟩ ∧
          |c.x - 0.729| < 0.001 ∧ c.y = 0 ∧ c.z = 1 := by
  refine ⟨fun _ _ _ => rfl, rfl, ?_⟩
  obtain ⟨c, h1, _, _, _, _, _, _, hx, _, _, _, hy, _, _, _, hz⟩ :=
    color_handler_applies_gamma (fun a b : ℝ => a ^ b) (fun _ _ _ => rfl) (sampleArgs ℝ)
      (sampleWorldOn ℝ) (sampleOcean ℝ) rfl
  exact ⟨c, h1, hx rfl, hy rfl, hz rfl⟩

/-- C6: each parameter-slider handler leaves the other four fields of the parameter record
and the checked flag of the checkbox as they were. -/
theorem param_sliders_touch_own_field_only (impl : EnableImpl F) (args : wiEventArgs F)
    (s : World F) :
    ((patchSizeSlider_OnSlide impl args s).panel.params.wave_amplitude
        = s.panel.params.wave_amplitude ∧
      (patchSizeSlider_OnSlide impl args s).panel.params.choppy_scale
        = s.panel.params.choppy_scale ∧
      (patchSizeSlider_OnSlide impl args s).panel.params.wind_dependency
        = s.panel.params.wind_dependency ∧
      (patchSizeSlider_OnSlide impl args s).panel.params.time_scale
        = s.panel.params.time_scale ∧
      (patchSizeSlider_OnSlide impl args s).panel.enabledCheck = s.panel.enabledCheck) ∧
    ((waveAmplitudeSlider_OnSlide impl args s).panel.params.patch_length
        = s.panel.params.patch_length ∧
      (waveAmplitudeSlider_OnSlide impl args s).panel.params.choppy_scale
        = s.panel.params.choppy_scale ∧
      (waveAmplitudeSlider_OnSlide impl args s).panel.params.wind_dependency
        = s.panel.params.wind_dependency ∧
      (waveAmplitudeSlider_OnSlide impl args s).panel.params.time_scale
        = s.panel.params.time_scale ∧
      (waveAmplitudeSlider_OnSlide impl args s).panel.enabledCheck = s.panel.enabledCheck) ∧
    ((choppyScaleSlider_OnSlide impl args s).panel.params.patch_length
        = s.panel.params.patch_length ∧
      (choppyScaleSlider_OnSlide impl args s).panel.params.wave_amplitude
        = s.panel.params.wave_amplitude ∧
      (choppyScaleSlider_OnSlide impl args s).panel.params.wind_dependency
        = s.panel.params.wind_dependency ∧
      (choppyScaleSlider_OnSlide impl args s).panel.params.time_scale
        = s.panel.params.time_scale ∧
      (choppyScaleSlider_OnSlide impl args s).panel.enabledCheck = s.panel.enabledCheck) ∧
    ((windDependencySlider_OnSlide impl args s).panel.params.patch_length
        = s.panel.params.patch_length ∧
      (windDependencySlider_OnSlide impl args s).panel.params.wave_amplitude
        = s.panel.params.wave_amplitude ∧
      (windDependencySlider_OnSlide impl args s).panel.params.choppy_scale
        = s.panel.params.choppy_scale ∧
      (windDependencySlider_OnSlide impl args s).panel.params.time_scale
        = s.panel.params.time_scale ∧
      (windDependencySlider_OnSlide impl args s).panel.enabledCheck = s.panel.enabledCheck) ∧
    ((timeScaleSlider_OnSlide impl args s).panel.params.patch_length
        = s.panel.params.patch_length ∧
      (timeScaleSlider_OnSlide impl args s).panel.params.wave_amplitude
        = s.panel.params.wave_amplitude ∧
      (timeScaleSlider_OnSlide impl args s).panel.params.choppy_scale
        = s.panel.params.choppy_scale ∧
      (timeScaleSlider_OnSlide impl args s).panel.params.wind_dependency
        = s.panel.params.wind_dependency ∧
      (timeScaleSlider_OnSlide impl args s).panel.enabledCheck = s.panel.enabledCheck) :=
  ⟨⟨rfl, rfl, rfl, rfl, rfl⟩, ⟨rfl, rfl, rfl, rfl, rfl⟩, ⟨rfl, rfl, rfl, rfl, rfl⟩,
    ⟨rfl, rfl, rfl, rfl, rfl⟩, ⟨rfl, rfl, rfl, rfl, rfl⟩⟩

/-- The `uint32_t` conversion is reduction modulo `2 ^ 32`. -/
theorem toUInt32_cast (i : Int) : (toUInt32 i : Int) = i % 2 ^ 32 := by
  unfold toUInt32
  exact Int.toNat_of_nonneg (Int.emod_nonneg i (by norm_num))

/-- C10: with a live instance, the surface-detail handler stores the `int` value `i` of the
event converted to `uint32_t`, that is `i mod 2 ^ 32`: the value itself for
`0 ≤ i < 2 ^ 31`, and `i + 2 ^ 32` for a negative `i` (no rejection, no clamping). -/
theorem detail_slider_stores_uint32 (args : wiEventArgs F) (s : World F) (o : wiOcean F)
    (h : GetOcean s.renderer = some o) :
    ∃ d : Nat,
      GetOcean (detailSlider_OnSlide args s).renderer
          = some ⟨o.waterHeight, d, o.surfaceDisplacementTolerance, o.waterColor⟩ ∧
        (d : Int) = args.iValue % 2 ^ 32 ∧
        (0 ≤ args.iValue → args.iValue < 2 ^ 31 → (d : Int) = args.iValue) ∧
        (-2 ^ 31 ≤ args.iValue → args.iValue < 0 → (d : Int) = args.iValue + 2 ^ 32) := by
  refine ⟨toUInt32 args.iValue, ?_, toUInt32_cast _, ?_, ?_⟩
  · simp only [detailSlider_OnSlide, h]
    rfl
  · intro h0 h1
    rw [toUInt32_cast]
    exact Int.emod_eq_of_lt h0 (by omega)
  · intro h0 h1
    rw [toUInt32_cast]
    omega

/-- Witness of C10: the slider value 7 is stored as 7. -/
theorem detail_slider_stores_uint32_witness :
    GetOcean (sampleWorldOn ℚ).renderer = some (sampleOcean ℚ) ∧
      ∃ d : Nat,
        GetOcean (detailSlider_OnSlide (sampleArgs ℚ) (sampleWorldOn ℚ)).renderer
            = some ⟨0, d, 2, ⟨0, 0, 0⟩⟩ ∧ (d : Int) = 7 := by
  refine ⟨rfl, ?_⟩
  obtain ⟨d, h1, _, h3, _⟩ :=
    detail_slider_stores_uint32 (sampleArgs ℚ) (sampleWorldOn ℚ) (sampleOcean ℚ) rfl
  exact ⟨d, h1, h3 (by decide) (by decide)⟩

/-- Running a sequence extended by one edit runs that edit last. -/
theorem applyEdits_append (impl : EnableImpl F) (edits : List (ParamSlider × wiEventArgs F))
    (e : ParamSlider × wiEventArgs F) (s : World F) :
    applyEdits impl (edits ++ [e]) s = e.1.OnSlide impl e.2 (applyEdits impl edits s) := by
  simp [applyEdits, List.foldl_append]

/-- The last edit of a sequence extended by one edit. -/
theorem lastEdit_append (k : ParamSlider) (edits : List (ParamSlider × wiEventArgs F))
    (e : ParamSlider × wiEventArgs F) (start : F) :
    lastEdit k (edits ++ [e]) start
      = if e.1 = k then e.2.fValue else lastEdit k edits start := by
  unfold lastEdit
  by_cases hk : e.1 = k
  · simp [List.reverse_append, List.find?_cons, hk]
  · simp [List.reverse_append, List.find?_cons, hk]

/-- A parameter-slider handler overwrites its own field and keeps the four others. -/
theorem field_OnSlide (impl : EnableImpl F) (k j : ParamSlider) (args : wiEventArgs F)
    (s : World F) :
    k.field (j.OnSlide impl args s).panel.params
      = if j = k then args.fValue else k.field s.panel.params := by
  cases k <;> cases j <;> rfl

/-- A parameter-slider handler keeps the checkbox flag. -/
theorem enabledCheck_OnSlide (impl : EnableImpl F) (k : ParamSlider) (args : wiEventArgs F)
    (s : World F) : (k.OnSlide impl args s).panel.enabledCheck = s.panel.enabledCheck := by
  cases k <;> rfl

/-- A parameter-slider handler appends one call, carrying the record it leaves behind. -/
theorem enableCalls_OnSlide (impl : EnableImpl F) (k : ParamSlider) (args : wiEventArgs F)
    (s : World F) :
    (k.OnSlide impl args s).renderer.enableCalls
      = s.renderer.enableCalls ++ [(s.panel.enabledCheck, (k.OnSlide impl args s).panel.params)] := by
  cases k <;> rfl

/-- A sequence of parameter edits keeps the checkbox flag. -/
theorem enabledCheck_applyEdits (impl : EnableImpl F)
    (edits : List (ParamSlider × wiEventArgs F)) (s : World F) :
    (applyEdits impl edits s).panel.enabledCheck = s.panel.enabledCheck := by
  induction edits using List.reverseRecOn with
  | nil => rfl
  | append_singleton l e ih => rw [applyEdits_append, enabledCheck_OnSlide, ih]

/-- Two parameter records with the same five fields are equal. -/
theorem params_ext_field (p q : wiOceanParameter F)
    (h : ∀ k : ParamSlider, k.field p = k.field q) : p = q := by
  cases p
  cases q
  have h1 := h .patchSize
  have h2 := h .waveAmplitude
  have h3 := h .choppyScale
  have h4 := h .windDependency
  have h5 := h .timeScale
  simp only [ParamSlider.field] at h1 h2 h3 h4 h5
  simp [h1, h2, h3, h4, h5]

/-- C7 (last edit wins): after any finite sequence of parameter-slider edits, each field of
the parameter record holds the value of the last edit that targeted it, or its starting
value when none did; after a non-empty sequence the last call of the enable function
carries the checkbox flag and that resulting record, and one call was made per edit; two
edits of different fields give the same record in either order; repeating an edit gives
the same record as doing it once. -/
theorem last_edit_wins (impl : EnableImpl F) (s : World F) :
    (∀ (edits : List (ParamSlider × wiEventArgs F)) (k : ParamSlider),
        k.field (applyEdits impl edits s).panel.params
          = lastEdit k edits (k.field s.panel.params)) ∧
      (∀ edits : List (ParamSlider × wiEventArgs F), edits ≠ [] →
        (applyEdits impl edits s).renderer.enableCalls.getLast?
          = some (s.panel.enabledCheck, (applyEdits impl edits s).panel.params)) ∧
      (∀ edits : List (ParamSlider × wiEventArgs F),
        (applyEdits impl edits s).renderer.enableCalls.length
          = s.renderer.enableCalls.length + edits.length) ∧
      (∀ (j k : ParamSlider) (a b : wiEventArgs F), j ≠ k →
        (applyEdits impl [(j, a), (k, b)] s).panel.params
          = (applyEdits impl [(k, b), (j, a)] s).panel.params) ∧
      (∀ (k : ParamSlider) (a : wiEventArgs F),
        (applyEdits impl [(k, a), (k, a)] s).panel.params
          = (applyEdits impl [(k, a)] s).panel.params) := by
  have hfield : ∀ (edits : List (ParamSlider × wiEventArgs F)) (k : ParamSlider),
      k.field (applyEdits impl edits s).panel.params
        = lastEdit k edits (k.field s.panel.params) := by
    intro edits k
    induction edits using List.reverseRecOn with
    | nil => rfl
    | append_singleton l e ih => rw [applyEdits_append, field_OnSlide, lastEdit_append, ih]
  refine ⟨hfield, ?_, ?_, ?_, ?_⟩
  · intro edits hne
    induction edits using List.reverseRecOn with
    | nil => exact absurd rfl hne
    | append_singleton l e _ =>
      rw [applyEdits_append, enableCalls_OnSlide, List.getLast?_append, enabledCheck_applyEdits]
      rfl
  · intro edits
    induction edits using List.reverseRecOn with
    | nil => rfl
    | append_singleton l e ih =>
      rw [applyEdits_append, enableCalls_OnSlide, List.length_append, ih, List.length_append]
      rfl
  · intro j k a b hjk
    apply params_ext_field
    intro f
    rw [hfield, hfield]
    cases f <;> cases j <;> cases k <;> first | exact absurd rfl hjk | rfl
  · intro k a
    apply params_ext_field
    intro f
    rw [hfield, hfield]
    cases f <;> cases k <;> rfl

/-- The sample renderer satisfies the assumption on the enable function. -/
theorem sampleImpl_contract : EnableContract (sampleImpl ℚ) := by
  intro b p o
  cases b <;> rfl

/-- C9: assuming the enable function leaves a live instance exactly when called with flag
true, "the checkbox is checked iff a live instance exists" holds after construction (the
constructor leaves the renderer as it found it and checks the box exactly when the accessor
reports an instance), holds after a click on the checkbox (the widget stores the flag, then
the handler runs with it; the handler alone yields the predicate exactly when it is run
with the flag the checkbox holds), and is preserved by the five parameter-slider handlers
and the four instance handlers. -/
theorem check_matches_instance_invariant [DivisionRing F] (impl : EnableImpl F)
    (powf : F → F → F) (hc : EnableContract impl) :
    (∀ (defaults : wiOceanParameter F) (r : wiRenderer F),
        (OceanWindow.create defaults r).renderer = r ∧
        (OceanWindow.create defaults r).panel.params = defaults ∧
        (OceanWindow.create defaults r).panel.enabledCheck = (GetOcean r).isSome ∧
        CheckMatchesInstance (OceanWindow.create defaults r)) ∧
      (∀ (args : wiEventArgs F) (s : World F),
        (enabledCheckBox_Click impl args s).panel.enabledCheck = args.bValue ∧
        (GetOcean (enabledCheckBox_Click impl args s).renderer).isSome = args.bValue ∧
        CheckMatchesInstance (enabledCheckBox_Click impl args s)) ∧
      (∀ (args : wiEventArgs F) (s : World F),
        CheckMatchesInstance (enabledCheckBox_OnClick impl args s)
          ↔ s.panel.enabledCheck = args.bValue) ∧
      (∀ (args : wiEventArgs F) (s : World F), CheckMatchesInstance s →
        CheckMatchesInstance (patchSizeSlider_OnSlide impl args s) ∧
        CheckMatchesInstance (waveAmplitudeSlider_OnSlide impl args s) ∧
        CheckMatchesInstance (choppyScaleSlider_OnSlide impl args s) ∧
        CheckMatchesInstance (windDependencySlider_OnSlide impl args s) ∧
        CheckMatchesInstance (timeScaleSlider_OnSlide impl args s)) ∧
      (∀ (args : wiEventArgs F) (s : World F), CheckMatchesInstance s →
        CheckMatchesInstance (heightSlider_OnSlide args s) ∧
        CheckMatchesInstance (detailSlider_OnSlide args s) ∧
        CheckMatchesInstance (toleranceSlider_OnSlide args s) ∧
        CheckMatchesInstance (colorPicker_OnColorChanged powf args s)) := by
  refine ⟨?_, ?_, ?_, ?_, ?_⟩
  · intro defaults r
    exact ⟨rfl, rfl, rfl, rfl⟩
  · intro args s
    exact ⟨rfl, hc args.bValue s.panel.params s.renderer.ocean,
      (hc args.bValue s.panel.params s.renderer.ocean).symm⟩
  · intro args s
    have he : (GetOcean (enabledCheckBox_OnClick impl args s).renderer).isSome = args.bValue :=
      hc args.bValue s.panel.params s.renderer.ocean
    constructor
    · intro hm
      exact Eq.trans hm he
    · intro hb
      exact hb.trans he.symm
  · intro args s _
    exact ⟨(hc _ _ _).symm, (hc _ _ _).symm, (hc _ _ _).symm, (hc _ _ _).symm,
      (hc _ _ _).symm⟩
  · intro args s hs
    unfold CheckMatchesInstance at hs ⊢
    cases ho : GetOcean s.renderer with
    | none =>
      simp only [heightSlider_OnSlide, detailSlider_OnSlide, toleranceSlider_OnSlide,
        colorPicker_OnColorChanged, ho]
      rw [ho] at hs
      exact ⟨hs, hs, hs, hs⟩
    | some o =>
      simp only [heightSlider_OnSlide, detailSlider_OnSlide, toleranceSlider_OnSlide,
        colorPicker_OnColorChanged, ho]
      rw [ho] at hs
      exact ⟨hs, hs, hs, hs⟩

/-- Witness of C9 with the sample renderer: construction over a renderer with and without a
live instance, then a click and a slide on the constructed panel. -/
theorem check_matches_instance_invariant_witness :
    EnableContract (sampleImpl ℚ) ∧
      (OceanWindow.create (sampleParams ℚ) (sampleWorldOn ℚ).renderer).panel.enabledCheck
        = true ∧
      (OceanWindow.create (sampleParams ℚ) (freshRenderer ℚ)).panel.enabledCheck = false ∧
      (OceanWindow.create (sampleParams ℚ) (sampleWorldOn ℚ).renderer).renderer
        = (sampleWorldOn ℚ).renderer ∧
      CheckMatchesInstance (OceanWindow.create (sampleParams ℚ) (freshRenderer ℚ)) ∧
      CheckMatchesInstance (enabledCheckBox_Click (sampleImpl ℚ) (sampleArgs ℚ)
        (OceanWindow.create (sampleParams ℚ) (freshRenderer ℚ))) ∧
      CheckMatchesInstance (patchSizeSlider_OnSlide (sampleImpl ℚ) (sampleArgs ℚ)
        (OceanWindow.create (sampleParams ℚ) (freshRenderer ℚ))) ∧
      CheckMatchesInstance (heightSlider_OnSlide (sampleArgs ℚ)
        (OceanWindow.create (sampleParams ℚ) (sampleWorldOn ℚ).renderer)) :=
  ⟨sampleImpl_contract,
    ((check_matches_instance_invariant (sampleImpl ℚ) samplePowf sampleImpl_contract).1
      (sampleParams ℚ) (sampleWorldOn ℚ).renderer).2.2.1,
    ((check_matches_instance_invariant (sampleImpl ℚ) samplePowf sampleImpl_contract).1
      (sampleParams ℚ) (freshRenderer ℚ)).2.2.1,
    ((check_matches_instance_invariant (sampleImpl ℚ) samplePowf sampleImpl_contract).1
      (sampleParams ℚ) (sampleWorldOn ℚ).renderer).1,
    ((check_matches_instance_invariant (sampleImpl ℚ) samplePowf sampleImpl_contract).1
      (sampleParams ℚ) (freshRenderer ℚ)).2.2.2,
    ((check_matches_instance_invariant (sampleImpl ℚ) samplePowf sampleImpl_contract).2.1
      (sampleArgs ℚ) (OceanWindow.create (sampleParams ℚ) (freshRenderer ℚ))).2.2,
    ((check_matches_instance_invariant (sampleImpl ℚ) samplePowf sampleImpl_contract).2.2.2.1
      (sampleArgs ℚ) (OceanWindow.create (sampleParams ℚ) (freshRenderer ℚ))
      ((check_matches_instance_invariant (sampleImpl ℚ) samplePowf sampleImpl_contract).1
        (sampleParams ℚ) (freshRenderer ℚ)).2.2.2).1,
    ((check_matches_instance_invariant (sampleImpl ℚ) samplePowf sampleImpl_contract).2.2.2.2
      (sampleArgs ℚ) (OceanWindow.create (sampleParams ℚ) (sampleWorldOn ℚ).renderer)
      ((check_matches_instance_invariant (sampleImpl ℚ) samplePowf sampleImpl_contract).1
        (sampleParams ℚ) (sampleWorldOn ℚ).renderer).2.2.2).1⟩

/-- Witness of C7: three edits, the first and last on the patch size. -/
theorem last_edit_wins_witness :
    ([(ParamSlider.patchSize, (⟨false, 3, 3, ⟨0, 0, 0, 0⟩⟩ : wiEventArgs ℚ)),
        (ParamSlider.timeScale, ⟨false, 2, 2, ⟨0, 0, 0, 0⟩⟩),
        (ParamSlider.patchSize, ⟨false, 5, 5, ⟨0, 0, 0, 0⟩⟩)] ≠ []) ∧
      ParamSlider.patchSize ≠ ParamSlider.timeScale ∧
      (applyEdits (sampleImpl ℚ)
          [(ParamSlider.patchSize, (⟨false, 3, 3, ⟨0, 0, 0, 0⟩⟩ : wiEventArgs ℚ)),
            (ParamSlider.timeScale, ⟨false, 2, 2, ⟨0, 0, 0, 0⟩⟩),
            (ParamSlider.patchSize, ⟨false, 5, 5, ⟨0, 0, 0, 0⟩⟩)]
          (sampleWorldOff ℚ)).renderer.enableCalls.getLast?
        = some (false, ⟨5, 1, 2, 1 / 2, 2⟩) ∧
      (applyEdits (sampleImpl ℚ)
          [(ParamSlider.patchSize, (⟨false, 3, 3, ⟨0, 0, 0, 0⟩⟩ : wiEventArgs ℚ)),
            (ParamSlider.timeScale, ⟨false, 2, 2, ⟨0, 0, 0, 0⟩⟩)]
          (sampleWorldOff ℚ)).panel.params
        = (applyEdits (sampleImpl ℚ)
          [(ParamSlider.timeScale, (⟨false, 2, 2, ⟨0, 0, 0, 0⟩⟩ : wiEventArgs ℚ)),
            (ParamSlider.patchSize, ⟨false, 3, 3, ⟨0, 0, 0, 0⟩⟩)]
          (sampleWorldOff ℚ)).panel.params :=
  ⟨by simp, by decide,
    (last_edit_wins (sampleImpl ℚ) (sampleWorldOff ℚ)).2.1 _ (by simp),
    (last_edit_wins (sampleImpl ℚ) (sampleWorldOff ℚ)).2.2.2.1 _ _ _ _ (by decide)⟩

/-- The handlers that write the live instance keep the panel and make no enable call. -/
theorem instance_handlers_frame [DivisionRing F] (powf : F → F → F) (args : wiEventArgs F)
    (s : World F) :
    ((heightSlider_OnSlide args s).panel = s.panel ∧
      (heightSlider_OnSlide args s).renderer.enableCalls = s.renderer.enableCalls) ∧
    ((detailSlider_OnSlide args s).panel = s.panel ∧
      (detailSlider_OnSlide args s).renderer.enableCalls = s.renderer.enableCalls) ∧
    ((toleranceSlider_OnSlide args s).panel = s.panel ∧
      (toleranceSlider_OnSlide args s).renderer.enableCalls = s.renderer.enableCalls) ∧
    ((colorPicker_OnColorChanged powf args s).panel = s.panel ∧
      (colorPicker_OnColorChanged powf args s).renderer.enableCalls
        = s.renderer.enableCalls) := by
  unfold heightSlider_OnSlide detailSlider_OnSlide toleranceSlider_OnSlide
    colorPicker_OnColorChanged
  cases GetOcean s.renderer <;> exact ⟨⟨rfl, rfl⟩, ⟨rfl, rfl⟩, ⟨rfl, rfl⟩, ⟨rfl, rfl⟩⟩

/-- Every slider of the panel is constructed with a non-empty range. -/
theorem widget_range_ordered [LinearOrderedField F] (k : Slider) :
    (k.widget : wiSlider F).rangeStart ≤ (k.widget : wiSlider F).rangeEnd := by
  rcases k with k | _ | _ | _
  · cases k <;>
      simp only [Slider.widget, patchSizeSlider, waveAmplitudeSlider, choppyScaleSlider,
        windDependencySlider, timeScaleSlider] <;> norm_num
  · simp only [Slider.widget, heightSlider]; norm_num
  · simp only [Slider.widget, detailSlider]; norm_num
  · simp only [Slider.widget, toleranceSlider]; norm_num

/-- The value delivered by a slide event lies in the range of the slider. -/
theorem Slide_fValue_inRange [LinearOrderedField F] [FloorRing F] (w : wiSlider F)
    (hw : w.rangeStart ≤ w.rangeEnd) (args : wiEventArgs F) :
    w.InRange (w.Slide args).fValue :=
  ⟨le_max_left _ _, max_le hw (min_le_left _ _)⟩

/-- The integer value delivered by the detail slider lies in 1..10. -/
theorem detail_iValue_range [LinearOrderedField F] [FloorRing F] (args : wiEventArgs F) :
    1 ≤ ((detailSlider : wiSlider F).Slide args).iValue ∧
      ((detailSlider : wiSlider F).Slide args).iValue ≤ 10 := by
  have hlo : ⌈((detailSlider : wiSlider F)).rangeStart⌉ = 1 := by
    show ⌈(1 : F)⌉ = 1
    exact Int.ceil_one
  have hhi : ⌊((detailSlider : wiSlider F)).rangeEnd⌋ = 10 := by
    show ⌊(10 : F)⌋ = 10
    have h10 : (10 : F) = ((10 : ℤ) : F) := by norm_num
    rw [h10, Int.floor_intCast]
  show 1 ≤ max ⌈((detailSlider : wiSlider F)).rangeStart⌉
        (min ⌊((detailSlider : wiSlider F)).rangeEnd⌋ args.iValue) ∧
      max ⌈((detailSlider : wiSlider F)).rangeStart⌉
        (min ⌊((detailSlider : wiSlider F)).rangeEnd⌋ args.iValue) ≤ 10
  rw [hlo, hhi]
  exact ⟨le_max_left _ _, max_le (by norm_num) (min_le_left _ _)⟩

/-- Running a sequence extended by one interaction runs that interaction last. -/
theorem run_append [LinearOrderedField F] [FloorRing F] (impl : EnableImpl F)
    (powf : F → F → F) (events : List (Event F)) (e : Event F) (s : World F) :
    run impl powf (events ++ [e]) s = e.dispatch impl powf (run impl powf events s) := by
  simp [run, List.foldl_append]

/-- Provenance of a record is kept when more interactions are taken into account. -/
theorem FromSliderOrDefault_append [LinearOrderedField F] [FloorRing F]
    (defaults : wiOceanParameter F) (events : List (Event F)) (e : Event F)
    (p : wiOceanParameter F) (hp : FromSliderOrDefault defaults events p) :
    FromSliderOrDefault defaults (events ++ [e]) p := by
  intro k
  rcases hp k with h | ⟨args, hm, hv, hr⟩
  · exact Or.inl h
  · exact Or.inr ⟨args, List.mem_append_left _ hm, hv, hr⟩

/-- A record whose fields come from sliders or from in-range defaults is in range. -/
theorem FromSliderOrDefault_inRange [LinearOrderedField F] [FloorRing F]
    (defaults : wiOceanParameter F) (events : List (Event F)) (p : wiOceanParameter F)
    (hd : ParamsInRange defaults) (hp : FromSliderOrDefault defaults events p) :
    ParamsInRange p := by
  have key : ∀ k : ParamSlider,
      ((Slider.param k).widget : wiSlider F).InRange (k.field defaults) →
      ((Slider.param k).widget : wiSlider F).InRange (k.field p) := by
    intro k hk
    rcases hp k with h | ⟨_, _, _, hr⟩
    · rw [h]
      exact hk
    · exact hr
  obtain ⟨h1, h2, h3, h4, h5⟩ := hd
  exact ⟨key .patchSize h1, key .waveAmplitude h2, key .choppyScale h3,
    key .windDependency h4, key .timeScale h5⟩

/-- One interaction keeps the provenance of the parameter record, and appends only calls
that carry a record with that provenance. -/
theorem dispatch_provenance [LinearOrderedField F] [FloorRing F] (impl : EnableImpl F)
    (powf : F → F → F) (defaults : wiOceanParameter F) (events : List (Event F))
    (e : Event F) (s : World F) (hs : FromSliderOrDefault defaults events s.panel.params) :
    FromSliderOrDefault defaults (events ++ [e]) (e.dispatch impl powf s).panel.params ∧
      ∃ calls : List (Bool × wiOceanParameter F),
        (e.dispatch impl powf s).renderer.enableCalls = s.renderer.enableCalls ++ calls ∧
          ∀ c ∈ calls, FromSliderOrDefault defaults (events ++ [e]) c.2 := by
  have hs2 := FromSliderOrDefault_append defaults events e s.panel.params hs
  cases e with
  | click args =>
    refine ⟨hs2, [(args.bValue, s.panel.params)], rfl, ?_⟩
    intro c hc
    rw [List.mem_singleton] at hc
    rw [hc]
    exact hs2
  | colorChanged args =>
    have hp := (instance_handlers_frame powf args s).2.2.2
    refine ⟨?_, [], ?_, ?_⟩
    · show FromSliderOrDefault defaults _ (colorPicker_OnColorChanged powf args s).panel.params
      rw [hp.1]
      exact hs2
    · show (colorPicker_OnColorChanged powf args s).renderer.enableCalls = _
      rw [hp.2, List.append_nil]
    · intro c hc
      cases hc
  | slide k args =>
    rcases k with j | _ | _ | _
    · have hnew : FromSliderOrDefault defaults
          (events ++ [Event.slide (Slider.param j) args])
          (j.OnSlide impl (((Slider.param j).widget : wiSlider F).Slide args) s).panel.params := by
        intro k
        rw [field_OnSlide]
        by_cases hjk : j = k
        · subst hjk
          rw [if_pos rfl]
          exact Or.inr ⟨args, List.mem_append_right _ (List.mem_singleton.mpr rfl), rfl,
            Slide_fValue_inRange _ (widget_range_ordered (Slider.param j)) args⟩
        · rw [if_neg hjk]
          exact hs2 k
      refine ⟨hnew, [(s.panel.enabledCheck,
        (j.OnSlide impl (((Slider.param j).widget : wiSlider F).Slide args) s).panel.params)],
        enableCalls_OnSlide impl j _ s, ?_⟩
      intro c hc
      rw [List.mem_singleton] at hc
      rw [hc]
      exact hnew
    · have hp := (instance_handlers_frame powf
        ((Slider.height.widget : wiSlider F).Slide args) s).1
      refine ⟨?_, [], ?_, ?_⟩
      · show FromSliderOrDefault defaults _ (heightSlider_OnSlide _ s).panel.params
        rw [hp.1]
        exact hs2
      · show (heightSlider_OnSlide _ s).renderer.enableCalls = _
        rw [hp.2, List.append_nil]
      · intro c hc
        cases hc
    · have hp := (instance_handlers_frame powf
        ((Slider.detail.widget : wiSlider F).Slide args) s).2.1
      refine ⟨?_, [], ?_, ?_⟩
      · show FromSliderOrDefault defaults _ (detailSlider_OnSlide _ s).panel.params
        rw [hp.1]
        exact hs2
      · show (detailSlider_OnSlide _ s).renderer.enableCalls = _
        rw [hp.2, List.append_nil]
      · intro c hc
        cases hc
    · have hp := (instance_handlers_frame powf
        ((Slider.tolerance.widget : wiSlider F).Slide args) s).2.2.1
      refine ⟨?_, [], ?_, ?_⟩
      · show FromSliderOrDefault defaults _ (toleranceSlider_OnSlide _ s).panel.params
        rw [hp.1]
        exact hs2
      · show (toleranceSlider_OnSlide _ s).renderer.enableCalls = _
        rw [hp.2, List.append_nil]
      · intro c hc
        cases hc

/-- After any sequence of interactions on a freshly constructed panel, the parameter record
and every record passed to the enable function since construction have their fields from
sliders or from the construction defaults. -/
theorem run_provenance [LinearOrderedField F] [FloorRing F] (impl : EnableImpl F)
    (powf : F → F → F) (defaults : wiOceanParameter F) (r : wiRenderer F)
    (events : List (Event F)) :
    FromSliderOrDefault defaults events
        (run impl powf events (OceanWindow.create defaults r)).panel.params ∧
      ∃ calls : List (Bool × wiOceanParameter F),
        (run impl powf events (OceanWindow.create defaults r)).renderer.enableCalls
            = r.enableCalls ++ calls ∧
          ∀ c ∈ calls, FromSliderOrDefault defaults events c.2 := by
  induction events using List.reverseRecOn with
  | nil => exact ⟨fun _ => Or.inl rfl, [], (List.append_nil _).symm, fun c hc => by cases hc⟩
  | append_singleton es e ih =>
    obtain ⟨h1, calls1, hc1, hr1⟩ := ih
    obtain ⟨h2, calls2, hc2, hr2⟩ := dispatch_provenance impl powf defaults es e
      (run impl powf es (OceanWindow.create defaults r)) h1
    rw [run_append]
    refine ⟨h2, calls1 ++ calls2, ?_, ?_⟩
    · rw [hc2, hc1, List.append_assoc]
    · intro c hc
      rcases List.mem_append.mp hc with h | h
      · exact FromSliderOrDefault_append defaults es e c.2 (hr1 c h)
      · exact hr2 c h

/-- C8, as stated, fails. The record the panel is constructed with is declared outside the
source, so the claim has to hold whatever it is. Right after construction a click on the
checkbox forwards the whole record to the enable function although no slide event has
happened, and a slide of the time-scale slider (whose own value is clamped to 4) forwards
the four fields it did not touch; with the defaults `wideDefaults` the forwarded wave
amplitude 1000 is outside the range [0, 100] of its slider. -/
theorem forwarded_defaults_outside_range :
    (run (sampleImpl ℚ) samplePowf [Event.click (sampleArgs ℚ)]
        (OceanWindow.create wideDefaults (freshRenderer ℚ))).renderer.enableCalls
      = [(true, wideDefaults)] ∧
    (∀ (k : Slider) (args : wiEventArgs ℚ),
      Event.slide k args ∉ [Event.click (sampleArgs ℚ)]) ∧
    (run (sampleImpl ℚ) samplePowf [Event.slide (Slider.param ParamSlider.timeScale) (sampleArgs ℚ)]
        (OceanWindow.create wideDefaults (freshRenderer ℚ))).renderer.enableCalls
      = [(false, ⟨50, 1000, 1, 1 / 2, 4⟩)] ∧
    ¬ (waveAmplitudeSlider : wiSlider ℚ).InRange wideDefaults.wave_amplitude ∧
    ¬ (waveAmplitudeSlider : wiSlider ℚ).InRange
        (⟨50, 1000, 1, 1 / 2, 4⟩ : wiOceanParameter ℚ).wave_amplitude ∧
    ¬ ParamsInRange wideDefaults ∧
    ¬ ∀ (defaults : wiOceanParameter ℚ) (events : List (Event ℚ)),
        ∀ c ∈ (run (sampleImpl ℚ) samplePowf events
            (OceanWindow.create defaults (freshRenderer ℚ))).renderer.enableCalls,
          ParamsInRange c.2 := by
  have hwide : ¬ ParamsInRange wideDefaults := by
    simp only [ParamsInRange, wiSlider.InRange, waveAmplitudeSlider, wideDefaults]
    norm_num
  refine ⟨rfl, ?_, ?_, ?_, ?_, hwide, ?_⟩
  · intro k args hm
    rw [List.mem_singleton] at hm
    cases hm
  · simp only [run, List.foldl, Event.dispatch, Slider.OnSlide, ParamSlider.OnSlide,
      timeScaleSlider_OnSlide, SetOceanEnabled, OceanWindow.create, freshRenderer,
      wiSlider.Slide, Slider.widget, timeScaleSlider, sampleArgs, wideDefaults, GetOcean]
    norm_num
  · simp only [wiSlider.InRange, waveAmplitudeSlider, wideDefaults]
    norm_num
  · simp only [wiSlider.InRange, waveAmplitudeSlider]
    norm_num
  · intro hall
    exact hwide (hall wideDefaults [Event.click (sampleArgs ℚ)] (true, wideDefaults)
      (List.mem_singleton.mpr rfl))

/-- C8 amended: every slide event delivers a value inside the range the slider was
constructed with, so each parameter-slider event leaves its field in range and each
water-level, surface-detail and displacement-tolerance event, with a live instance, leaves
the field it writes in range; the colour event writes only `waterColor`. After any sequence
of interactions on a panel constructed with any record `defaults`, each field of the
parameter record, and of every record passed to the enable function since construction,
either still equals its construction default or is the in-range value delivered by a slide
event of its own slider; so all of them are in range when the defaults are. -/
theorem slider_values_in_range [LinearOrderedField F] [FloorRing F] (impl : EnableImpl F)
    (powf : F → F → F) :
    (∀ (k : Slider) (args : wiEventArgs F),
        (k.widget : wiSlider F).InRange ((k.widget : wiSlider F).Slide args).fValue) ∧
      (∀ args : wiEventArgs F,
        1 ≤ ((detailSlider : wiSlider F).Slide args).iValue ∧
          ((detailSlider : wiSlider F).Slide args).iValue ≤ 10) ∧
      (∀ (k : ParamSlider) (args : wiEventArgs F) (s : World F),
        ((Slider.param k).widget : wiSlider F).InRange
          (k.field ((Event.slide (Slider.param k) args).dispatch impl powf s).panel.params)) ∧
      (∀ (args : wiEventArgs F) (s : World F) (o : wiOcean F), GetOcean s.renderer = some o →
        (∃ v : F,
          GetOcean ((Event.slide Slider.height args).dispatch impl powf s).renderer
              = some ⟨v, o.surfaceDetail, o.surfaceDisplacementTolerance, o.waterColor⟩ ∧
            (heightSlider : wiSlider F).InRange v) ∧
        (∃ d : Nat,
          GetOcean ((Event.slide Slider.detail args).dispatch impl powf s).renderer
              = some ⟨o.waterHeight, d, o.surfaceDisplacementTolerance, o.waterColor⟩ ∧
            1 ≤ d ∧ d ≤ 10) ∧
        (∃ v : F,
          GetOcean ((Event.slide Slider.tolerance args).dispatch impl powf s).renderer
              = some ⟨o.waterHeight, o.surfaceDetail, v, o.waterColor⟩ ∧
            (toleranceSlider : wiSlider F).InRange v) ∧
        (∃ c : XMFLOAT3 F,
          GetOcean ((Event.colorChanged args).dispatch impl powf s).renderer
              = some ⟨o.waterHeight, o.surfaceDetail, o.surfaceDisplacementTolerance, c⟩)) ∧
      (∀ (defaults : wiOceanParameter F) (r : wiRenderer F) (events : List (Event F)),
        FromSliderOrDefault defaults events
          (run impl powf events (OceanWindow.create defaults r)).panel.params ∧
        ∃ calls : List (Bool × wiOceanParameter F),
          (run impl powf events (OceanWindow.create defaults r)).renderer.enableCalls
              = r.enableCalls ++ calls ∧
            ∀ c ∈ calls, FromSliderOrDefault defaults events c.2) ∧
      (∀ (defaults : wiOceanParameter F) (r : wiRenderer F) (events : List (Event F)),
        ParamsInRange defaults →
        ParamsInRange (run impl powf events (OceanWindow.create defaults r)).panel.params ∧
        ∃ calls : List (Bool × wiOceanParameter F),
          (run impl powf events (OceanWindow.create defaults r)).renderer.enableCalls
              = r.enableCalls ++ calls ∧
            ∀ c ∈ calls, ParamsInRange c.2) := by
  refine ⟨?_, detail_iValue_range, ?_, ?_, ?_, ?_⟩
  · intro k args
    exact Slide_fValue_inRange _ (widget_range_ordered k) args
  · intro k args s
    show ((Slider.param k).widget : wiSlider F).InRange
      (k.field (k.OnSlide impl (((Slider.param k).widget : wiSlider F).Slide args) s).panel.params)
    rw [field_OnSlide, if_pos rfl]
    exact Slide_fValue_inRange _ (widget_range_ordered (Slider.param k)) args
  · intro args s o h
    refine ⟨⟨((heightSlider : wiSlider F).Slide args).fValue, ?_, ?_⟩,
      ⟨toUInt32 ((detailSlider : wiSlider F).Slide args).iValue, ?_, ?_⟩,
      ⟨((toleranceSlider : wiSlider F).Slide args).fValue, ?_, ?_⟩,
      ⟨XMFLOAT3.mk (powf args.color.x (1 / 2.2)) (powf args.color.y (1 / 2.2))
        (powf args.color.z (1 / 2.2)), ?_⟩⟩
    · simp only [Event.dispatch, Slider.OnSlide, heightSlider_OnSlide, h]
      rfl
    · exact Slide_fValue_inRange _ (widget_range_ordered Slider.height) args
    · simp only [Event.dispatch, Slider.OnSlide, detailSlider_OnSlide, h]
      rfl
    · have hd := detail_iValue_range args
      have hc := toUInt32_cast ((detailSlider : wiSlider F).Slide args).iValue
      omega
    · simp only [Event.dispatch, Slider.OnSlide, toleranceSlider_OnSlide, h]
      rfl
    · exact Slide_fValue_inRange _ (widget_range_ordered Slider.tolerance) args
    · simp only [Event.dispatch, colorPicker_OnColorChanged, h]
      rfl
  · intro defaults r events
    exact run_provenance impl powf defaults r events
  · intro defaults r events hd
    obtain ⟨h1, calls, hc, hr⟩ := run_provenance impl powf defaults r events
    exact ⟨FromSliderOrDefault_inRange defaults events _ hd h1, calls, hc,
      fun c hm => FromSliderOrDefault_inRange defaults events c.2 hd (hr c hm)⟩

/-- Witness of the amended C8: a slide far outside the range with a live instance; a click
and a slide on a panel constructed with `wideDefaults`; and a click and two slides on a
panel constructed with in-range defaults. -/
theorem slider_values_in_range_witness :
    GetOcean (sampleWorldOn ℚ).renderer = some (sampleOcean ℚ) ∧
      ParamsInRange (sampleParams ℚ) ∧
      (∃ v : ℚ,
        GetOcean ((Event.slide Slider.height ⟨false, 5000, 0, ⟨0, 0, 0, 0⟩⟩).dispatch
            (sampleImpl ℚ) samplePowf (sampleWorldOn ℚ)).renderer
          = some ⟨v, 4, 2, ⟨0, 0, 0⟩⟩ ∧
          (heightSlider : wiSlider ℚ).InRange v) ∧
      FromSliderOrDefault wideDefaults
        [Event.click (sampleArgs ℚ),
          Event.slide (Slider.param ParamSlider.timeScale) (sampleArgs ℚ)]
        (run (sampleImpl ℚ) samplePowf
          [Event.click (sampleArgs ℚ),
            Event.slide (Slider.param ParamSlider.timeScale) (sampleArgs ℚ)]
          (OceanWindow.create wideDefaults (freshRenderer ℚ))).panel.params ∧
      ParamsInRange (run (sampleImpl ℚ) samplePowf
        [Event.click (sampleArgs ℚ),
          Event.slide (Slider.param ParamSlider.patchSize) (sampleArgs ℚ),
          Event.slide (Slider.param ParamSlider.waveAmplitude) ⟨false, 5000, 0, ⟨0, 0, 0, 0⟩⟩]
        (OceanWindow.create (sampleParams ℚ) (freshRenderer ℚ))).panel.params := by
  have hp : ParamsInRange (sampleParams ℚ) := by
    simp only [ParamsInRange, wiSlider.InRange, sampleParams, patchSizeSlider,
      waveAmplitudeSlider, choppyScaleSlider, windDependencySlider, timeScaleSlider]
    norm_num
  exact ⟨rfl, hp,
    ((slider_values_in_range (sampleImpl ℚ) samplePowf).2.2.2.1 _ (sampleWorldOn ℚ)
      (sampleOcean ℚ) rfl).1,
    ((slider_values_in_range (sampleImpl ℚ) samplePowf).2.2.2.2.1 wideDefaults
      (freshRenderer ℚ) _).1,
    ((slider_values_in_range (sampleImpl ℚ) samplePowf).2.2.2.2.2 (sampleParams ℚ)
      (freshRenderer ℚ) _ hp).1⟩

end WickedEngine
